import Mathlib

/-!
Verification of the forward-instanced render pipeline
(`src/render/passes/forward_instanced/mod.rs`).

The embedding models the pipeline component faithfully:
* f32 values are represented by their 32-bit patterns (`Nat`), since the
  pipeline only moves them around byte-wise (zerocopy `as_bytes`);
* the wgpu device is a fresh-id generator: every `create_buffer_mapped` /
  `finish` pair yields a new `Buffer` with a fresh identity and the bytes
  written into the mapped region;
* the legion world is a list of entities, each with optional components;
  query iteration follows the store's native (list) order;
* the Rust `HashMap` used for mesh grouping is modelled as an association
  list with first-insertion key order (deterministic within one run, which
  is all the claims rely on);
* render-pass recording is a trace of commands.
-/

namespace ForwardInstanced

/-- A 3-vector of f32 bit patterns (glam `Vec3`, external crate). -/
structure Vec3 where
  x : Nat
  y : Nat
  z : Nat
  deriving DecidableEq, Repr

/-- A 4-vector of f32 bit patterns (glam `Vec4`, external crate). -/
structure Vec4 where
  x : Nat
  y : Nat
  z : Nat
  w : Nat
  deriving DecidableEq, Repr

/-- Modelled from the spec: `Material` (repository code outside `src/`)
"exposes a color value"; only `get_color` is used by this pass. -/
structure Material where
  color : Vec4
  deriving DecidableEq, Repr

def Material.get_color (m : Material) : Vec4 := m.color

/-- Modelled from the spec: `LocalToWorld` (legion_transform, outside `src/`)
is "a 4×4 (or equivalent decomposable) local-to-world matrix; the core
extracts only the translation component from it".  We carry the
translation that `to_scale_rotation_translation` extracts. -/
structure LocalToWorld where
  translation : Vec3
  deriving DecidableEq, Repr

/-- The translation component of glam's
`Mat4::to_scale_rotation_translation` (only part the pass reads). -/
def LocalToWorld.to_translation (t : LocalToWorld) : Vec3 := t.translation

/-- Modelled from the spec: `Handle<Mesh>` is "a stable integer/opaque
identifier used as the grouping key". -/
structure MeshHandle where
  id : Nat
  deriving DecidableEq, Repr

/-- An entity of the legion world: optional components, plus the
`Instanced` zero-data marker as a flag. -/
structure Entity where
  material : Option Material
  localToWorld : Option LocalToWorld
  mesh : Option MeshHandle
  instanced : Bool
  deriving DecidableEq, Repr

/-- The legion world, in the store's native iteration order. -/
def World := List Entity

/-- The legion query
`<(Read<Material>, Read<LocalToWorld>, Read<Handle<Mesh>>, Read<Instanced>)>`:
entities holding all four components, in store order. -/
def queryInstanced (world : List Entity) : List (Material × LocalToWorld × Nat) :=
  world.filterMap fun e =>
    match e.material, e.localToWorld, e.mesh, e.instanced with
    | some m, some t, some h, true => some (m, t, h.id)
    | _, _, _, _ => none

/-- Modelled from the spec: `SimpleMaterialUniforms` (repository code
outside `src/`) is the InstanceRecord, "a fixed-size, tightly packed value
type: \x7bposition: 3×float32, color: 4×float32\x7d". -/
structure SimpleMaterialUniforms where
  position : Vec3
  color : Vec4
  deriving DecidableEq, Repr

/-- Little-endian bytes of one 32-bit word (zerocopy layout of one f32). -/
def leBytes4 (w : Nat) : List Nat :=
  [w % 256, w / 256 % 256, w / 65536 % 256, w / 16777216 % 256]

/-- zerocopy `AsBytes` for the tightly packed record: position fields then
color fields, each 4 little-endian bytes. -/
def SimpleMaterialUniforms.as_bytes (u : SimpleMaterialUniforms) : List Nat :=
  leBytes4 u.position.x ++ leBytes4 u.position.y ++ leBytes4 u.position.z ++
  leBytes4 u.color.x ++ leBytes4 u.color.y ++ leBytes4 u.color.z ++ leBytes4 u.color.w

/-- Rust `mem::size_of::<SimpleMaterialUniforms>()`: 7 tightly packed f32s. -/
def simple_material_uniforms_size : Nat := 28

/-- A GPU buffer: identity (allocation order) plus its byte contents. -/
structure Buffer where
  id : Nat
  data : List Nat
  deriving DecidableEq, Repr

/-- The wgpu `Device`, modelled as the source of fresh buffer/resource
identities. -/
structure Device where
  nextId : Nat
  deriving DecidableEq, Repr

/-- The `InstanceBufferInfo` struct (declared in `render::instancing`, used here):
one batch. -/
structure InstanceBufferInfo where
  mesh_id : Nat
  buffer : Buffer
  instance_count : Nat
  deriving DecidableEq, Repr

/-- One step of the `mesh_groups` HashMap update in
`create_instance_buffer_infos`: `get_mut` + `push` when the key exists,
`insert` of a fresh singleton group otherwise. -/
def groupsInsert (groups : List (Nat × List (Material × LocalToWorld)))
    (id : Nat) (p : Material × LocalToWorld) :
    List (Nat × List (Material × LocalToWorld)) :=
  match groups with
  | [] => [(id, [p])]
  | (k, ps) :: rest =>
    if k = id then (k, ps ++ [p]) :: rest else (k, ps) :: groupsInsert rest id p

/-- The `mesh_groups` map built by the first loop of
`create_instance_buffer_infos`: mesh id ↦ ordered (material, transform)
pairs, entities visited in store order. -/
def mesh_groups (entities : List (Material × LocalToWorld × Nat)) :
    List (Nat × List (Material × LocalToWorld)) :=
  entities.foldl (fun gs e => groupsInsert gs e.2.2 (e.1, e.2.1)) []

/-- The bytes written into one group's mapped buffer: for each (material,
transform) pair in group order, the record
`\x7bposition: translation, color: material.get_color()\x7d.as_bytes()`. -/
def packGroup (ps : List (Material × LocalToWorld)) : List Nat :=
  (ps.map fun p =>
    (SimpleMaterialUniforms.mk p.2.to_translation p.1.get_color).as_bytes).flatten

/-- The second loop of `create_instance_buffer_infos`: one
`create_buffer_mapped` + fill + `finish` per mesh group, pushing one
`InstanceBufferInfo` per group in group order. -/
def buildInfos (dev : Device) :
    List (Nat × List (Material × LocalToWorld)) → Device × List InstanceBufferInfo
  | [] => (dev, [])
  | (mid, ps) :: rest =>
    let buf : Buffer := ⟨dev.nextId, packGroup ps⟩
    let r := buildInfos ⟨dev.nextId + 1⟩ rest
    (r.1, ⟨mid, buf, ps.length⟩ :: r.2)

/-- Embeds `ForwardInstancedPipeline::create_instance_buffer_infos`: early exit on
an empty query, otherwise group by mesh id and materialize one buffer per
group. -/
def create_instance_buffer_infos (dev : Device) (world : List Entity) :
    Device × List InstanceBufferInfo :=
  let entities := queryInstanced world
  if entities.length = 0 then (dev, [])
  else buildInfos dev (mesh_groups entities)

/-- Modelled from the spec: a mesh asset of the external mesh-asset store
(`asset` module, outside `src/`): GPU vertex/index buffers (realized by
`setup_buffers`, "lazily realized on first use, cached thereafter") and
the index count driving the draw range. -/
structure MeshAsset where
  indices_len : Nat
  vertex_buffer : Nat
  index_buffer : Nat
  deriving DecidableEq, Repr

/-- Modelled from the spec: `AssetStorage<Mesh>` — "lookup by mesh
identifier". -/
def AssetStorage := List (Nat × MeshAsset)

/-- Embeds `AssetStorage::get`. -/
def storageGet (storage : List (Nat × MeshAsset)) (id : Nat) : Option MeshAsset :=
  (storage.find? fun p => p.1 = id).map Prod.snd

/-- One recorded command of the wgpu render pass. -/
inductive RenderCommand where
  | setBindGroup (index : Nat) (group : Nat)
  | setIndexBuffer (buffer : Nat) (offset : Nat)
  | setVertexBuffers (slot : Nat) (buffer : Nat) (offset : Nat)
  | drawIndexed (indexStart indexEnd baseVertex instanceStart instanceEnd : Nat)
  deriving DecidableEq, Repr

/-- The body of render's per-batch loop: skip the batch when the mesh id is
absent from the store, otherwise bind index buffer, mesh vertex buffer
(slot 0), instance buffer (slot 1) and issue one indexed-instanced draw
over the mesh's full index range and the batch's instance count. -/
def renderBatch (storage : List (Nat × MeshAsset)) (info : InstanceBufferInfo) :
    List RenderCommand :=
  match storageGet storage info.mesh_id with
  | some mesh =>
    [ .setIndexBuffer mesh.index_buffer 0,
      .setVertexBuffers 0 mesh.vertex_buffer 0,
      .setVertexBuffers 1 info.buffer.id 0,
      .drawIndexed 0 mesh.indices_len 0 0 info.instance_count ]
  | none => []

/-- The `ForwardInstancedPipeline` struct. `pipeline`, bind group and the
shared uniform buffers are carried by identity. -/
structure ForwardInstancedPipeline where
  pipeline : Option Nat
  depth_format : Nat
  local_bind_group : Option Nat
  instance_buffer_infos : Option (List InstanceBufferInfo)
  msaa_samples : Nat
  deriving DecidableEq, Repr

/-- Embeds `ForwardInstancedPipeline::new`. -/
def ForwardInstancedPipeline.new (depth_format msaa_samples : Nat) :
    ForwardInstancedPipeline :=
  { pipeline := none
    depth_format := depth_format
    msaa_samples := msaa_samples
    local_bind_group := none
    instance_buffer_infos := none }

/-- The `render_resources::FORWARD_UNIFORM_BUFFER_NAME` constant (declared declared
outside `src/`; the value is an opaque registry key). -/
def FORWARD_UNIFORM_BUFFER_NAME : String := "forward_uniform_buffer"

/-- The `render_resources::LIGHT_UNIFORM_BUFFER_NAME` constant (declared declared
outside `src/`; the value is an opaque registry key). -/
def LIGHT_UNIFORM_BUFFER_NAME : String := "light_uniform_buffer"

/-- The `RenderGraphData` struct: the device plus the registry of named shared
uniform buffers consulted by `get_uniform_buffer`. -/
structure RenderGraphData where
  device : Device
  uniform_buffers : List (String × Nat)
  deriving DecidableEq, Repr

/-- Embeds `RenderGraphData::get_uniform_buffer`: lookup of a named shared
uniform buffer. -/
def RenderGraphData.get_uniform_buffer (rg : RenderGraphData) (name : String) :
    Option Nat :=
  (rg.uniform_buffers.find? fun p => p.1 = name).map Prod.snd

/-- Allocate one fresh device resource id. -/
def Device.fresh (dev : Device) : Nat × Device :=
  (dev.nextId, ⟨dev.nextId + 1⟩)

/-- Embeds `ForwardInstancedPipeline::initialize` (named `initializePipeline`
because `initialize` is reserved in Lean): creates the bind-group layout,
looks up the two named shared uniform buffers — `unwrap` panics (`none`)
if either is absent —, creates the shared bind group and the render
pipeline, and builds an initial instance-batch set.  Returns the updated
pipeline state and device on success. -/
def initializePipeline (self : ForwardInstancedPipeline) (rg : RenderGraphData)
    (world : List Entity) : Option (ForwardInstancedPipeline × Device) :=
  let (_bind_group_layout, dev1) := rg.device.fresh
  match rg.get_uniform_buffer FORWARD_UNIFORM_BUFFER_NAME,
        rg.get_uniform_buffer LIGHT_UNIFORM_BUFFER_NAME with
  | some _forward_buf, some _light_buf =>
    let (bind_group, dev2) := dev1.fresh
    let (pipeline_obj, dev3) := dev2.fresh
    let r := create_instance_buffer_infos dev3 world
    some ({ self with
              local_bind_group := some bind_group
              pipeline := some pipeline_obj
              instance_buffer_infos := some r.2 },
          r.1)
  | _, _ => none

/-- Embeds `ForwardInstancedPipeline::render`: rebuilds the instance-batch set
from the current world, binds the shared bind group (`unwrap` panics —
`none` — when `local_bind_group` was never set), then runs the per-batch
loop.  Returns the updated pipeline state, the device, and the recorded
pass commands. -/
def render (self : ForwardInstancedPipeline) (storage : List (Nat × MeshAsset))
    (dev : Device) (world : List Entity) :
    Option (ForwardInstancedPipeline × Device × List RenderCommand) :=
  let r := create_instance_buffer_infos dev world
  let self1 := { self with instance_buffer_infos := some r.2 }
  match self1.local_bind_group with
  | none => none
  | some bg =>
    some (self1, r.1,
      RenderCommand.setBindGroup 0 bg :: (r.2.map (renderBatch storage)).flatten)

/-- Embeds `ForwardInstancedPipeline::resize`: the body is empty. -/
def resize (self : ForwardInstancedPipeline) (_rg : RenderGraphData) :
    ForwardInstancedPipeline :=
  self

/-- The `wgpu::VertexFormat` type (the two formats this pass uses). -/
inductive VertexFormat where
  | Float3
  | Float4
  deriving DecidableEq, Repr

/-- The `wgpu::VertexAttributeDescriptor` struct. -/
structure VertexAttributeDescriptor where
  format : VertexFormat
  offset : Nat
  shader_location : Nat
  deriving DecidableEq, Repr

/-- The `wgpu::InputStepMode` type. -/
inductive InputStepMode where
  | Vertex
  | Instance
  deriving DecidableEq, Repr

/-- The `wgpu::VertexBufferDescriptor` struct (stride, step mode, attributes). -/
structure VertexBufferDescriptor where
  stride : Nat
  step_mode : InputStepMode
  attributes : List VertexAttributeDescriptor
  deriving DecidableEq, Repr

/-- The `instance_buffer_descriptor` declared in `initialize`: per-instance
stepping, stride `size_of::<SimpleMaterialUniforms>()`, a Float3 attribute
at offset 0 (shader location 3) and a Float4 attribute at offset `3 * 4`
(shader location 4). -/
def instance_buffer_descriptor : VertexBufferDescriptor :=
  { stride := simple_material_uniforms_size
    step_mode := InputStepMode.Instance
    attributes :=
      [ ⟨VertexFormat.Float3, 0, 3⟩,
        ⟨VertexFormat.Float4, 3 * 4, 4⟩ ] }

/-- Read the 32-bit word stored little-endian at byte offset `off`. -/
def readWordAt : List Nat → Nat → Nat
  | b0 :: b1 :: b2 :: b3 :: _, 0 => b0 + 256 * b1 + 65536 * b2 + 16777216 * b3
  | _ :: rest, off + 1 => readWordAt rest off
  | _, _ => 0

/-! ### Lemmas about the mesh grouping -/

/-- Effect of one `groupsInsert` on the key list: an existing key keeps the
keys unchanged, a new key is appended. -/
def insertDistinct (l : List Nat) (x : Nat) : List Nat :=
  if x ∈ l then l else l ++ [x]

lemma mem_insertDistinct (l : List Nat) (x y : Nat) :
    y ∈ insertDistinct l x ↔ y ∈ l ∨ y = x := by
  unfold insertDistinct
  by_cases h : x ∈ l
  · simp only [if_pos h]
    exact ⟨Or.inl, fun hy => hy.elim id fun e => e ▸ h⟩
  · simp [if_neg h]

lemma nodup_insertDistinct (l : List Nat) (x : Nat) (h : l.Nodup) :
    (insertDistinct l x).Nodup := by
  unfold insertDistinct
  by_cases hx : x ∈ l
  · simpa [if_pos hx]
  · simp [if_neg hx, List.nodup_append, h, hx]

lemma groupsInsert_keys (gs : List (Nat × List (Material × LocalToWorld)))
    (id : Nat) (p : Material × LocalToWorld) :
    (groupsInsert gs id p).map Prod.fst = insertDistinct (gs.map Prod.fst) id := by
  induction gs with
  | nil => simp [groupsInsert, insertDistinct]
  | cons g rest ih =>
    obtain ⟨k, ps⟩ := g
    by_cases hk : k = id
    · subst hk
      simp [groupsInsert, insertDistinct]
    · simp only [groupsInsert, if_neg hk, List.map_cons, ih, insertDistinct]
      by_cases hid : id ∈ rest.map Prod.fst
      · simp [hid, Ne.symm hk]
      · simp [hid, Ne.symm hk]

lemma groupsInsert_sum (gs : List (Nat × List (Material × LocalToWorld)))
    (id : Nat) (p : Material × LocalToWorld) :
    ((groupsInsert gs id p).map fun g => g.2.length).sum
      = ((gs.map fun g => g.2.length).sum) + 1 := by
  induction gs with
  | nil => simp [groupsInsert]
  | cons g rest ih =>
    obtain ⟨k, ps⟩ := g
    by_cases hk : k = id
    · subst hk
      simp [groupsInsert]
      omega
    · simp [groupsInsert, if_neg hk, ih]
      omega

/-- The distinct ids of a list, in first-occurrence order. -/
def distinctIds (ids : List Nat) : List Nat := ids.foldl insertDistinct []

lemma foldl_insertDistinct_nodup (ids : List Nat) :
    ∀ acc : List Nat, acc.Nodup → (ids.foldl insertDistinct acc).Nodup := by
  induction ids with
  | nil => intro acc h; simpa
  | cons i rest ih =>
    intro acc h
    exact ih (insertDistinct acc i) (nodup_insertDistinct acc i h)

lemma mem_foldl_insertDistinct (ids : List Nat) (y : Nat) :
    ∀ acc : List Nat, y ∈ ids.foldl insertDistinct acc ↔ y ∈ acc ∨ y ∈ ids := by
  induction ids with
  | nil => intro acc; simp
  | cons i rest ih =>
    intro acc
    rw [List.foldl_cons, ih, mem_insertDistinct]
    simp
    tauto

lemma distinctIds_nodup (ids : List Nat) : (distinctIds ids).Nodup :=
  foldl_insertDistinct_nodup ids [] List.nodup_nil

lemma mem_distinctIds (ids : List Nat) (y : Nat) :
    y ∈ distinctIds ids ↔ y ∈ ids := by
  unfold distinctIds
  rw [mem_foldl_insertDistinct]
  simp

lemma distinctIds_length (ids : List Nat) :
    (distinctIds ids).length = ids.toFinset.card := by
  have hset : (distinctIds ids).toFinset = ids.toFinset := by
    apply Finset.ext
    intro y
    simp [List.mem_toFinset, mem_distinctIds]
  calc (distinctIds ids).length
      = (distinctIds ids).toFinset.card :=
        (List.toFinset_card_of_nodup (distinctIds_nodup ids)).symm
    _ = ids.toFinset.card := by rw [hset]

lemma mesh_groups_keys_aux (es : List (Material × LocalToWorld × Nat)) :
    ∀ gs, ((es.foldl (fun gs e => groupsInsert gs e.2.2 (e.1, e.2.1)) gs).map Prod.fst)
      = es.foldl (fun l e => insertDistinct l e.2.2) (gs.map Prod.fst) := by
  induction es with
  | nil => intro gs; simp
  | cons e rest ih =>
    intro gs
    rw [List.foldl_cons, List.foldl_cons, ih, groupsInsert_keys]

lemma mesh_groups_keys (es : List (Material × LocalToWorld × Nat)) :
    (mesh_groups es).map Prod.fst = distinctIds (es.map fun e => e.2.2) := by
  unfold mesh_groups distinctIds
  rw [mesh_groups_keys_aux, List.foldl_map]
  rfl

lemma mesh_groups_sum_aux (es : List (Material × LocalToWorld × Nat)) :
    ∀ gs, (((es.foldl (fun gs e => groupsInsert gs e.2.2 (e.1, e.2.1)) gs).map
        fun g => g.2.length).sum)
      = ((gs.map fun g => g.2.length).sum) + es.length := by
  induction es with
  | nil => intro gs; simp
  | cons e rest ih =>
    intro gs
    rw [List.foldl_cons, ih, groupsInsert_sum]
    simp
    omega

lemma mesh_groups_sum (es : List (Material × LocalToWorld × Nat)) :
    ((mesh_groups es).map fun g => g.2.length).sum = es.length := by
  unfold mesh_groups
  rw [mesh_groups_sum_aux]
  simp

/-! ### Lemmas about buffer materialization -/

lemma buildInfos_length (gs : List (Nat × List (Material × LocalToWorld))) :
    ∀ dev, ((buildInfos dev gs).2).length = gs.length := by
  induction gs with
  | nil => intro dev; simp [buildInfos]
  | cons g rest ih =>
    intro dev
    obtain ⟨mid, ps⟩ := g
    simp [buildInfos, ih]

lemma buildInfos_counts (gs : List (Nat × List (Material × LocalToWorld))) :
    ∀ dev, ((buildInfos dev gs).2).map (fun i => i.instance_count)
      = gs.map fun g => g.2.length := by
  induction gs with
  | nil => intro dev; simp [buildInfos]
  | cons g rest ih =>
    intro dev
    obtain ⟨mid, ps⟩ := g
    simp [buildInfos, ih]

lemma buildInfos_content (gs : List (Nat × List (Material × LocalToWorld))) :
    ∀ dev, ((buildInfos dev gs).2).map (fun i => (i.mesh_id, i.buffer.data, i.instance_count))
      = gs.map fun g => (g.1, packGroup g.2, g.2.length) := by
  induction gs with
  | nil => intro dev; simp [buildInfos]
  | cons g rest ih =>
    intro dev
    obtain ⟨mid, ps⟩ := g
    simp [buildInfos, ih]

lemma buildInfos_nextId (gs : List (Nat × List (Material × LocalToWorld))) :
    ∀ dev, (buildInfos dev gs).1.nextId = dev.nextId + gs.length := by
  induction gs with
  | nil => intro dev; simp [buildInfos]
  | cons g rest ih =>
    intro dev
    obtain ⟨mid, ps⟩ := g
    simp [buildInfos, ih]
    omega

lemma buildInfos_id_bounds (gs : List (Nat × List (Material × LocalToWorld))) :
    ∀ dev, ∀ info ∈ (buildInfos dev gs).2,
      dev.nextId ≤ info.buffer.id ∧ info.buffer.id < dev.nextId + gs.length := by
  induction gs with
  | nil => intro dev info h; simp [buildInfos] at h
  | cons g rest ih =>
    intro dev info h
    obtain ⟨mid, ps⟩ := g
    simp only [buildInfos, List.mem_cons] at h
    rcases h with h | h
    · subst h
      refine ⟨Nat.le_refl _, ?_⟩
      simp only [List.length_cons]
      simp
    · have := ih ⟨dev.nextId + 1⟩ info h
      simp only [List.length_cons]
      simp at this
      omega

/-- The list a mesh id maps to in the grouping association list. -/
def lookupGroup : List (Nat × List (Material × LocalToWorld)) → Nat →
    List (Material × LocalToWorld)
  | [], _ => []
  | (k, ps) :: rest, m => if k = m then ps else lookupGroup rest m

lemma lookupGroup_groupsInsert (gs : List (Nat × List (Material × LocalToWorld)))
    (id : Nat) (p : Material × LocalToWorld) (m : Nat) :
    lookupGroup (groupsInsert gs id p) m
      = lookupGroup gs m ++ (if id = m then [p] else []) := by
  induction gs with
  | nil =>
    by_cases him : id = m <;> simp [groupsInsert, lookupGroup, him]
  | cons g rest ih =>
    obtain ⟨k, ps⟩ := g
    by_cases hk : k = id
    · subst hk
      by_cases hm : k = m
      · subst hm
        simp [groupsInsert, lookupGroup]
      · simp [groupsInsert, lookupGroup, hm]
    · by_cases hm : k = m
      · subst hm
        have hik : id ≠ k := Ne.symm hk
        simp [groupsInsert, hk, lookupGroup, hik]
      · simp [groupsInsert, hk, lookupGroup, hm, ih]

lemma mesh_groups_lookup_aux (es : List (Material × LocalToWorld × Nat)) (m : Nat) :
    ∀ gs, lookupGroup (es.foldl (fun gs e => groupsInsert gs e.2.2 (e.1, e.2.1)) gs) m
      = lookupGroup gs m
        ++ es.filterMap fun e => if e.2.2 = m then some (e.1, e.2.1) else none := by
  induction es with
  | nil => intro gs; simp
  | cons e rest ih =>
    intro gs
    rw [List.foldl_cons, ih, lookupGroup_groupsInsert]
    by_cases hm : e.2.2 = m
    · simp [hm]
    · simp [hm]

/-- The (material, transform) pairs of the instanced entities referencing
mesh `m`, in the order the grouping loop visits them (store order). -/
def visitOrder (world : List Entity) (m : Nat) : List (Material × LocalToWorld) :=
  (queryInstanced world).filterMap fun e =>
    if e.2.2 = m then some (e.1, e.2.1) else none

lemma mesh_groups_lookup (es : List (Material × LocalToWorld × Nat)) (m : Nat) :
    lookupGroup (mesh_groups es) m
      = es.filterMap fun e => if e.2.2 = m then some (e.1, e.2.1) else none := by
  unfold mesh_groups
  rw [mesh_groups_lookup_aux]
  simp [lookupGroup]

lemma lookupGroup_of_mem (gs : List (Nat × List (Material × LocalToWorld)))
    (hnd : (gs.map Prod.fst).Nodup) (mid : Nat) (ps : List (Material × LocalToWorld))
    (h : (mid, ps) ∈ gs) : lookupGroup gs mid = ps := by
  induction gs with
  | nil => simp at h
  | cons g rest ih =>
    obtain ⟨k, qs⟩ := g
    simp only [List.map_cons, List.nodup_cons] at hnd
    rcases List.mem_cons.mp h with h | h
    · injection h with hk hq
      subst hk
      subst hq
      simp [lookupGroup]
    · have hmid : mid ∈ rest.map Prod.fst :=
        List.mem_map.mpr ⟨(mid, ps), h, rfl⟩
      have hk : k ≠ mid := fun e => hnd.1 (e ▸ hmid)
      simp [lookupGroup, hk]
      exact ih hnd.2 h

lemma buildInfos_mem (gs : List (Nat × List (Material × LocalToWorld))) :
    ∀ dev, ∀ info ∈ (buildInfos dev gs).2,
      ∃ ps, (info.mesh_id, ps) ∈ gs ∧ info.buffer.data = packGroup ps
        ∧ info.instance_count = ps.length := by
  induction gs with
  | nil => intro dev info h; simp [buildInfos] at h
  | cons g rest ih =>
    intro dev info h
    obtain ⟨mid, ps⟩ := g
    simp only [buildInfos, List.mem_cons] at h
    rcases h with h | h
    · subst h
      exact ⟨ps, List.mem_cons_self .., rfl, rfl⟩
    · obtain ⟨qs, hqs, hdata, hcount⟩ := ih ⟨dev.nextId + 1⟩ info h
      exact ⟨qs, List.mem_cons_of_mem _ hqs, hdata, hcount⟩

/-! ### Claim theorems -/

/-- C1: for every entity set with N ≥ 0 entities holding all of
\x7bMaterial, Transform, MeshHandle, InstancedTag\x7d spread over M distinct
mesh identifiers, one call to `create_instance_buffer_infos` produces
exactly M batches, and the sum of the batches' `instance_count` equals N. -/
theorem batching_counts (dev : Device) (world : List Entity) :
    ((create_instance_buffer_infos dev world).2).length
      = ((queryInstanced world).map fun e => e.2.2).toFinset.card
    ∧ ((create_instance_buffer_infos dev world).2.map fun i => i.instance_count).sum
      = (queryInstanced world).length := by
  unfold create_instance_buffer_infos
  by_cases h : (queryInstanced world).length = 0
  · have hnil : queryInstanced world = [] := List.length_eq_zero.mp h
    simp [h, hnil]
  · simp only [if_neg h]
    constructor
    · rw [buildInfos_length]
      have h1 : (mesh_groups (queryInstanced world)).length
          = ((mesh_groups (queryInstanced world)).map Prod.fst).length := by
        simp
      rw [h1, mesh_groups_keys, distinctIds_length]
    · rw [buildInfos_counts, mesh_groups_sum]

/-- C2: a record packed from any position/color f32 words occupies 28
tightly packed bytes; the declared per-instance attributes are a Float3 at
offset 0 and a Float4 at offset 12; reading the bytes back at offsets
0, 4, 8 (position) and 12, 16, 20, 24 (color) returns exactly the packed
words. -/
theorem record_layout_matches_descriptor (px py pz cx cy cz cw : Nat)
    (hpx : px < 2 ^ 32) (hpy : py < 2 ^ 32) (hpz : pz < 2 ^ 32)
    (hcx : cx < 2 ^ 32) (hcy : cy < 2 ^ 32) (hcz : cz < 2 ^ 32) (hcw : cw < 2 ^ 32) :
    ((SimpleMaterialUniforms.mk ⟨px, py, pz⟩ ⟨cx, cy, cz, cw⟩).as_bytes).length
        = instance_buffer_descriptor.stride
    ∧ instance_buffer_descriptor.step_mode = InputStepMode.Instance
    ∧ (instance_buffer_descriptor.attributes.map fun a => (a.format, a.offset))
        = [(VertexFormat.Float3, 0), (VertexFormat.Float4, 12)]
    ∧ readWordAt ((SimpleMaterialUniforms.mk ⟨px, py, pz⟩ ⟨cx, cy, cz, cw⟩).as_bytes) 0 = px
    ∧ readWordAt ((SimpleMaterialUniforms.mk ⟨px, py, pz⟩ ⟨cx, cy, cz, cw⟩).as_bytes) 4 = py
    ∧ readWordAt ((SimpleMaterialUniforms.mk ⟨px, py, pz⟩ ⟨cx, cy, cz, cw⟩).as_bytes) 8 = pz
    ∧ readWordAt ((SimpleMaterialUniforms.mk ⟨px, py, pz⟩ ⟨cx, cy, cz, cw⟩).as_bytes) 12 = cx
    ∧ readWordAt ((SimpleMaterialUniforms.mk ⟨px, py, pz⟩ ⟨cx, cy, cz, cw⟩).as_bytes) 16 = cy
    ∧ readWordAt ((SimpleMaterialUniforms.mk ⟨px, py, pz⟩ ⟨cx, cy, cz, cw⟩).as_bytes) 20 = cz
    ∧ readWordAt ((SimpleMaterialUniforms.mk ⟨px, py, pz⟩ ⟨cx, cy, cz, cw⟩).as_bytes) 24 = cw := by
  refine ⟨rfl, rfl, rfl, ?_, ?_, ?_, ?_, ?_, ?_, ?_⟩ <;>
  · simp only [SimpleMaterialUniforms.as_bytes, leBytes4, List.cons_append,
      List.nil_append, readWordAt]
    omega

/-- Witness for C2: the f32 bit patterns of translation (1, 2, 3) and
color (0.1, 0.2, 0.3, 1.0): reading back offset 0 yields f32 1.0
(0x3F800000) and offset 12 yields f32 0.1 (0x3DCCCCCD). -/
theorem record_layout_matches_descriptor_witness :
    (1065353216 < 2 ^ 32 ∧ 1036831949 < 2 ^ 32)
    ∧ readWordAt ((SimpleMaterialUniforms.mk
          ⟨1065353216, 1073741824, 1077936128⟩
          ⟨1036831949, 1045220557, 1050253722, 1065353216⟩).as_bytes) 0 = 1065353216
    ∧ readWordAt ((SimpleMaterialUniforms.mk
          ⟨1065353216, 1073741824, 1077936128⟩
          ⟨1036831949, 1045220557, 1050253722, 1065353216⟩).as_bytes) 12 = 1036831949 :=
  ⟨⟨by decide, by decide⟩,
   (record_layout_matches_descriptor 1065353216 1073741824 1077936128
      1036831949 1045220557 1050253722 1065353216
      (by decide) (by decide) (by decide) (by decide)
      (by decide) (by decide) (by decide)).2.2.2.1,
   (record_layout_matches_descriptor 1065353216 1073741824 1077936128
      1036831949 1045220557 1050253722 1065353216
      (by decide) (by decide) (by decide) (by decide)
      (by decide) (by decide) (by decide)).2.2.2.2.2.2.1⟩

/-! ### Concrete fixtures -/

/-- A concrete material whose color words are `v, v+1, v+2, v+3`. -/
def exMaterial (v : Nat) : Material := ⟨⟨v, v + 1, v + 2, v + 3⟩⟩

/-- A concrete fully equipped instanced entity. -/
def exEntity (v mid : Nat) : Entity :=
  ⟨some (exMaterial v), some ⟨⟨v, v + 1, v + 2⟩⟩, some ⟨mid⟩, true⟩

/-- Entity store of the end-to-end scenario: 3 instanced entities on
mesh 7 and 2 on mesh 9 (interleaved in store order). -/
def threeTwoWorld : List Entity :=
  [exEntity 10 7, exEntity 20 7, exEntity 30 9, exEntity 40 7, exEntity 50 9]

/-- Mesh-asset store holding meshes 7 and 9 with realized GPU buffers. -/
def twoMeshStorage : List (Nat × MeshAsset) :=
  [(7, ⟨12, 70, 71⟩), (9, ⟨30, 90, 91⟩)]

/-- A pipeline state whose shared bind group (42) has been set, as after a
successful initialization. -/
def readySelf : ForwardInstancedPipeline :=
  { ForwardInstancedPipeline.new 0 1 with local_bind_group := some 42 }

/-- C3: with 3 instanced entities on mesh 7 and 2 on mesh 9 (both meshes
present), one render call records exactly: the shared bind-group bind
first, then for mesh 7 its index buffer (71), its vertex buffer (70), the
batch's instance buffer and one indexed-instanced draw with
instance_count 3, then the same for mesh 9 with instance_count 2 —
exactly 2 draw calls in total. -/
theorem render_three_two_draws :
    ((render readySelf twoMeshStorage ⟨0⟩ threeTwoWorld).map fun out => out.2.2)
      = some
        [RenderCommand.setBindGroup 0 42,
         RenderCommand.setIndexBuffer 71 0,
         RenderCommand.setVertexBuffers 0 70 0,
         RenderCommand.setVertexBuffers 1 0 0,
         RenderCommand.drawIndexed 0 12 0 0 3,
         RenderCommand.setIndexBuffer 91 0,
         RenderCommand.setVertexBuffers 0 90 0,
         RenderCommand.setVertexBuffers 1 1 0,
         RenderCommand.drawIndexed 0 30 0 0 2] := by
  decide

lemma mesh_groups_keys_nodup (es : List (Material × LocalToWorld × Nat)) :
    ((mesh_groups es).map Prod.fst).Nodup := by
  rw [mesh_groups_keys]
  exact distinctIds_nodup _

/-- C4: every batch produced by the batching step packs its records in
exactly the order the grouping loop visited the batch's entities (the
store's native order restricted to that mesh): the buffer bytes are the
flattened, in-order record packs, and the instance count is the group
length. -/
theorem records_follow_visit_order (dev : Device) (world : List Entity)
    (info : InstanceBufferInfo)
    (h : info ∈ (create_instance_buffer_infos dev world).2) :
    info.buffer.data = packGroup (visitOrder world info.mesh_id)
    ∧ info.instance_count = (visitOrder world info.mesh_id).length := by
  unfold create_instance_buffer_infos at h
  by_cases hq : (queryInstanced world).length = 0
  · simp [hq] at h
  · simp only [if_neg hq] at h
    obtain ⟨ps, hmem, hdata, hcount⟩ := buildInfos_mem _ _ info h
    have hps : lookupGroup (mesh_groups (queryInstanced world)) info.mesh_id = ps :=
      lookupGroup_of_mem _ (mesh_groups_keys_nodup _) _ _ hmem
    rw [mesh_groups_lookup] at hps
    have hvis : visitOrder world info.mesh_id = ps := hps
    rw [hvis]
    exact ⟨hdata, hcount⟩

/-- The first batch the batching step produces on `threeTwoWorld`. -/
def batch7 : InstanceBufferInfo :=
  ((create_instance_buffer_infos ⟨0⟩ threeTwoWorld).2).getD 0 ⟨0, ⟨0, []⟩, 0⟩

/-- Witness for C4: the mesh-7 batch of the end-to-end store packs its 3
records in visit order. -/
theorem records_follow_visit_order_witness :
    batch7 ∈ (create_instance_buffer_infos ⟨0⟩ threeTwoWorld).2
    ∧ batch7.buffer.data = packGroup (visitOrder threeTwoWorld batch7.mesh_id)
    ∧ batch7.instance_count = (visitOrder threeTwoWorld batch7.mesh_id).length :=
  ⟨by decide,
   (records_follow_visit_order ⟨0⟩ threeTwoWorld batch7 (by decide)).1,
   (records_follow_visit_order ⟨0⟩ threeTwoWorld batch7 (by decide)).2⟩

/-- The frame-visible content of a batch (grouping and packed records),
without the GPU buffer identity. -/
def batchContent (i : InstanceBufferInfo) : Nat × List Nat × Nat :=
  (i.mesh_id, i.buffer.data, i.instance_count)

lemma create_infos_content (dev dev' : Device) (world : List Entity) :
    ((create_instance_buffer_infos dev world).2).map batchContent
      = ((create_instance_buffer_infos dev' world).2).map batchContent := by
  unfold create_instance_buffer_infos
  by_cases h : (queryInstanced world).length = 0
  · simp [h]
  · simp only [if_neg h]
    have hl : ∀ d : Device,
        ((buildInfos d (mesh_groups (queryInstanced world))).2).map batchContent
          = (mesh_groups (queryInstanced world)).map fun g =>
              (g.1, packGroup g.2, g.2.length) := by
      intro d
      have := buildInfos_content (mesh_groups (queryInstanced world)) d
      simpa [batchContent] using this
    rw [hl, hl]

lemma create_infos_id_bounds (dev : Device) (world : List Entity) :
    ∀ info ∈ (create_instance_buffer_infos dev world).2,
      dev.nextId ≤ info.buffer.id
      ∧ info.buffer.id < (create_instance_buffer_infos dev world).1.nextId := by
  unfold create_instance_buffer_infos
  by_cases h : (queryInstanced world).length = 0
  · simp [h]
  · simp only [if_neg h]
    intro info hi
    have hb := buildInfos_id_bounds _ dev info hi
    rw [buildInfos_nextId]
    exact hb

lemma create_infos_dev_mono (dev : Device) (world : List Entity) :
    dev.nextId ≤ (create_instance_buffer_infos dev world).1.nextId := by
  unfold create_instance_buffer_infos
  by_cases h : (queryInstanced world).length = 0
  · simp [h]
  · simp only [if_neg h]
    rw [buildInfos_nextId]
    omega

/-- C5: two consecutive render calls over an unchanged entity set produce
batch sets with identical content — same grouping and same record values —
while every buffer identity of the second set differs from every buffer
identity of the first (fresh allocations). -/
theorem render_twice_same_content
    (self : ForwardInstancedPipeline) (storage : List (Nat × MeshAsset))
    (dev : Device) (world : List Entity)
    (self1 self2 : ForwardInstancedPipeline) (dev1 dev2 : Device)
    (cmds1 cmds2 : List RenderCommand)
    (h1 : render self storage dev world = some (self1, dev1, cmds1))
    (h2 : render self1 storage dev1 world = some (self2, dev2, cmds2)) :
    ∃ infos1 infos2,
      self1.instance_buffer_infos = some infos1
      ∧ self2.instance_buffer_infos = some infos2
      ∧ infos1.map batchContent = infos2.map batchContent
      ∧ ∀ i1 ∈ infos1, ∀ i2 ∈ infos2, i1.buffer.id ≠ i2.buffer.id := by
  unfold render at h1 h2
  cases hbg : self.local_bind_group with
  | none => rw [hbg] at h1; simp at h1
  | some bg =>
    rw [hbg] at h1
    simp at h1
    obtain ⟨hs1, hd1, _hc1⟩ := h1
    have hbg1 : self1.local_bind_group = some bg := by
      rw [← hs1]
    rw [hbg1] at h2
    simp at h2
    obtain ⟨hs2, hd2, _hc2⟩ := h2
    refine ⟨(create_instance_buffer_infos dev world).2,
            (create_instance_buffer_infos dev1 world).2, ?_, ?_, ?_, ?_⟩
    · rw [← hs1]
    · rw [← hs2]
    · exact create_infos_content dev dev1 world
    · intro i1 hi1 i2 hi2
      have b1 := create_infos_id_bounds dev world i1 hi1
      have b2 := create_infos_id_bounds dev1 world i2 hi2
      have hdev1 : (create_instance_buffer_infos dev world).1 = dev1 := hd1
      rw [hdev1] at b1
      omega

/-- A one-entity store used to instantiate C5 concretely. -/
def oneWorld : List Entity := [exEntity 10 7]

/-- The pipeline state after the first render over `oneWorld` (batch
buffer id 0). -/
def selfAfterFirst : ForwardInstancedPipeline :=
  { readySelf with instance_buffer_infos :=
      (some [⟨7, ⟨0, packGroup (visitOrder oneWorld 7)⟩, 1⟩]) }

/-- The pipeline state after the second render over `oneWorld` (batch
buffer id 1, same content). -/
def selfAfterSecond : ForwardInstancedPipeline :=
  { readySelf with instance_buffer_infos :=
      (some [⟨7, ⟨1, packGroup (visitOrder oneWorld 7)⟩, 1⟩]) }

/-- Witness for C5: rendering `oneWorld` twice from a fresh device yields
equal batch content and distinct buffer identities (0 versus 1). -/
theorem render_twice_same_content_witness :
    ∃ infos1 infos2,
      selfAfterFirst.instance_buffer_infos = some infos1
      ∧ selfAfterSecond.instance_buffer_infos = some infos2
      ∧ infos1.map batchContent = infos2.map batchContent
      ∧ ∀ i1 ∈ infos1, ∀ i2 ∈ infos2, i1.buffer.id ≠ i2.buffer.id :=
  render_twice_same_content readySelf [] ⟨0⟩ oneWorld
    selfAfterFirst selfAfterSecond ⟨1⟩ ⟨2⟩
    [RenderCommand.setBindGroup 0 42] [RenderCommand.setBindGroup 0 42]
    (by decide) (by decide)

/-- C6: with zero instanced entities, render succeeds (no error), produces
zero batches, allocates zero instance buffers (the device is returned
unchanged) and records zero draw calls — only the bind of the shared
resource set. -/
theorem empty_query_is_noop (self : ForwardInstancedPipeline)
    (storage : List (Nat × MeshAsset)) (dev : Device) (world : List Entity)
    (bg : Nat) (hq : queryInstanced world = [])
    (hbg : self.local_bind_group = some bg) :
    render self storage dev world
      = some ({ self with instance_buffer_infos := (some []) }, dev,
              [RenderCommand.setBindGroup 0 bg]) := by
  unfold render create_instance_buffer_infos
  simp [hq, hbg]

/-- Witness for C6: a store whose only entity lacks the instanced tag
renders as a pure no-op. -/
theorem empty_query_is_noop_witness :
    render readySelf twoMeshStorage ⟨5⟩ [⟨some (exMaterial 1), none, none, false⟩]
      = some ({ readySelf with instance_buffer_infos := (some []) }, ⟨5⟩,
              [RenderCommand.setBindGroup 0 42]) :=
  empty_query_is_noop readySelf twoMeshStorage ⟨5⟩
    [⟨some (exMaterial 1), none, none, false⟩] 42 (by decide) (by decide)

/-- C7: initialization panics (models as `none`) precisely when the lookup
of either named shared uniform buffer (frame-global or light) in the
external registry returns no buffer; with both present it succeeds.  The
lookups happen only in `initializePipeline` — `render` takes no registry. -/
theorem initialize_requires_both_uniform_buffers
    (self : ForwardInstancedPipeline) (rg : RenderGraphData)
    (world : List Entity) :
    initializePipeline self rg world = none
      ↔ rg.get_uniform_buffer FORWARD_UNIFORM_BUFFER_NAME = none
        ∨ rg.get_uniform_buffer LIGHT_UNIFORM_BUFFER_NAME = none := by
  unfold initializePipeline
  cases hf : rg.get_uniform_buffer FORWARD_UNIFORM_BUFFER_NAME <;>
    cases hl : rg.get_uniform_buffer LIGHT_UNIFORM_BUFFER_NAME <;>
      simp [Device.fresh, hf, hl]

/-- C8: render's `unwrap` of the shared bind group fails (`none`) exactly
when the pipeline is uninitialized: a fresh `new` state has no bind group,
and any state produced by a successful initialization has one, making the
failure branch unreachable after initialization. -/
theorem render_unwrap_reachability
    (self : ForwardInstancedPipeline) (storage : List (Nat × MeshAsset))
    (dev : Device) (world : List Entity) (df ms : Nat) (rg : RenderGraphData)
    (w0 : List Entity) (s' : ForwardInstancedPipeline) (d' : Device) :
    (render self storage dev world = none ↔ self.local_bind_group = none)
    ∧ (ForwardInstancedPipeline.new df ms).local_bind_group = none
    ∧ (initializePipeline self rg w0 = some (s', d') →
        ∀ (storage2 : List (Nat × MeshAsset)) (dev2 : Device) (w2 : List Entity),
          render s' storage2 dev2 w2 ≠ none) := by
  refine ⟨?_, rfl, ?_⟩
  · unfold render
    cases hbg : self.local_bind_group <;> simp [hbg]
  · intro hinit storage2 dev2 w2
    have hbg : ∃ bg, s'.local_bind_group = some bg := by
      unfold initializePipeline at hinit
      cases hf : rg.get_uniform_buffer FORWARD_UNIFORM_BUFFER_NAME with
      | none => rw [hf] at hinit; simp [Device.fresh] at hinit
      | some fb =>
        cases hl : rg.get_uniform_buffer LIGHT_UNIFORM_BUFFER_NAME with
        | none => rw [hf, hl] at hinit; simp [Device.fresh] at hinit
        | some lb =>
          rw [hf, hl] at hinit
          simp [Device.fresh] at hinit
          obtain ⟨hs, _hd⟩ := hinit
          exact ⟨_, by rw [← hs]⟩
    obtain ⟨bg, hbg⟩ := hbg
    unfold render
    rw [hbg]
    simp

/-- A registry holding both named shared uniform buffers. -/
def rgGood : RenderGraphData :=
  ⟨⟨0⟩, [(FORWARD_UNIFORM_BUFFER_NAME, 100), (LIGHT_UNIFORM_BUFFER_NAME, 200)]⟩

/-- The pipeline state a successful initialization against `rgGood` over an
empty store produces. -/
def initializedSelf : ForwardInstancedPipeline :=
  { pipeline := some 2
    depth_format := 0
    local_bind_group := some 1
    instance_buffer_infos := some []
    msaa_samples := 1 }

/-- Witness for C8: a fresh pipeline panics in render; the same pipeline
after a successful initialization renders without panicking. -/
theorem render_unwrap_reachability_witness :
    render (ForwardInstancedPipeline.new 0 1) [] ⟨0⟩ [] = none
    ∧ render initializedSelf [] ⟨0⟩ [] ≠ none :=
  ⟨(render_unwrap_reachability (ForwardInstancedPipeline.new 0 1) [] ⟨0⟩ []
      0 1 rgGood [] initializedSelf ⟨3⟩).1.mpr rfl,
   (render_unwrap_reachability (ForwardInstancedPipeline.new 0 1) [] ⟨0⟩ []
      0 1 rgGood [] initializedSelf ⟨3⟩).2.2 (by decide) [] ⟨0⟩ []⟩

/-- C9: resize leaves every field of the pipeline component unchanged — it
is the identity on the component's state, so no pipeline object, bind
group or batch set is rebuilt. -/
theorem resize_is_noop (self : ForwardInstancedPipeline) (rg : RenderGraphData) :
    resize self rg = self
    ∧ (resize self rg).pipeline = self.pipeline
    ∧ (resize self rg).local_bind_group = self.local_bind_group
    ∧ (resize self rg).instance_buffer_infos = self.instance_buffer_infos
    ∧ (resize self rg).depth_format = self.depth_format
    ∧ (resize self rg).msaa_samples = self.msaa_samples :=
  ⟨rfl, rfl, rfl, rfl, rfl, rfl⟩

/-- C10: a batch whose mesh id is absent from the mesh-asset store
contributes no commands at all — no index/vertex/instance-buffer bind and
no draw — while render still succeeds with the full trace being the
in-order concatenation of every batch's commands, so the remaining
batches are still drawn. -/
theorem missing_mesh_batch_skipped
    (storage : List (Nat × MeshAsset)) (info : InstanceBufferInfo)
    (self : ForwardInstancedPipeline) (dev : Device) (world : List Entity)
    (bg : Nat) (hbg : self.local_bind_group = some bg)
    (hmiss : storageGet storage info.mesh_id = none) :
    renderBatch storage info = []
    ∧ ((render self storage dev world).map fun out => out.2.2)
        = some (RenderCommand.setBindGroup 0 bg ::
            ((create_instance_buffer_infos dev world).2.map
              (renderBatch storage)).flatten) := by
  constructor
  · unfold renderBatch
    rw [hmiss]
  · unfold render
    simp [hbg]

/-- Mesh-asset store holding only mesh 9: mesh 7 is missing at draw time. -/
def onlyNineStorage : List (Nat × MeshAsset) := [(9, ⟨30, 90, 91⟩)]

/-- Witness for C10: over the end-to-end store with mesh 7 absent, the
mesh-7 batch emits nothing and render still draws the mesh-9 batch. -/
theorem missing_mesh_batch_skipped_witness :
    (renderBatch onlyNineStorage batch7 = []
      ∧ ((render readySelf onlyNineStorage ⟨0⟩ threeTwoWorld).map fun out => out.2.2)
          = some (RenderCommand.setBindGroup 0 42 ::
              ((create_instance_buffer_infos ⟨0⟩ threeTwoWorld).2.map
                (renderBatch onlyNineStorage)).flatten))
    ∧ ((render readySelf onlyNineStorage ⟨0⟩ threeTwoWorld).map fun out => out.2.2)
        = some
          [RenderCommand.setBindGroup 0 42,
           RenderCommand.setIndexBuffer 91 0,
           RenderCommand.setVertexBuffers 0 90 0,
           RenderCommand.setVertexBuffers 1 1 0,
           RenderCommand.drawIndexed 0 30 0 0 2] :=
  ⟨missing_mesh_batch_skipped onlyNineStorage batch7 readySelf ⟨0⟩ threeTwoWorld
      42 (by decide) (by decide),
   by decide⟩

end ForwardInstanced
